import Mathlib

/-!
Shallow embedding of `src/src/main.js` (vue-password-auth-token), the
`Authenticate` class: cookie-backed credential storage, reactive auth
state, refresh timer scheduling, and the axios request/response
interceptors.  Time is a millisecond timestamp (`Nat`); the browser
cookie store is a `CookieJar` from which expired entries are invisible
to `Cookies.get`; asynchronous HTTP results (token endpoint, userinfo
endpoint) are passed in as explicit parameters so that each operation is
modelled as its completed run.
-/

namespace PasswordAuth

/-- The `_options` record of the `Authenticate` constructor, after
`install` merged user options over the defaults.  `null` defaults are
modelled as strings supplied by the embedder. -/
structure Options where
  base_url : String
  client_id : String
  service_name : String
  token_endpoint : String
  token_type : String
  token_header : String
  userinfo_endpoint : String
  cookie_secure : Bool
deriving Repr, DecidableEq

/-- One persisted cookie entry: its string value, its expiration
timestamp in ms (the `expires` attribute) and the `secure` flag. -/
structure Cookie where
  value : String
  expires : Nat
  secure : Bool
deriving Repr, DecidableEq

/-- The browser cookie store: association list from cookie name to entry. -/
abbrev CookieJar := List (String × Cookie)

/-- `Cookies.get(name)` at time `now`: an entry whose expiration has
passed is gone from the store, so the read yields `none`. -/
def cookiesGet (jar : CookieJar) (now : Nat) (name : String) : Option String :=
  match jar.lookup name with
  | some c => if now < c.expires then some c.value else none
  | none => none

/-- `Cookies.set(name, value, \x7b expires, secure \x7d)`: replaces any
entry of the same name. -/
def cookiesSet (jar : CookieJar) (name value : String) (expires : Nat)
    (secure : Bool) : CookieJar :=
  (name, ⟨value, expires, secure⟩) :: jar.filter (fun p => p.1 != name)

/-- `Cookies.remove(name)`. -/
def cookiesRemove (jar : CookieJar) (name : String) : CookieJar :=
  jar.filter (fun p => p.1 != name)

/-- The user object held in `_store.user`, as a JSON object: keys with
values.  `Object.keys(user).length` is its list length. -/
abbrev UserObj := List (String × String)

/-- The reactive `_store` data: `isAuthenticated` and `user`. -/
structure Store where
  isAuthenticated : Bool
  user : UserObj
deriving Repr, DecidableEq

/-- Result of the asynchronous userinfo GET, as seen by the `.then` /
`.catch` chain inside `reloadState`. -/
inductive FetchResult where
  | ok (data : UserObj)
  | err
deriving Repr, DecidableEq

/-- One invocation of the registered `onStateChange` listener, with the
arguments the code passes: `(isAuthenticated, user)`. -/
abbrev Event := Bool × UserObj

/-- Whole plugin state: options, cookie store, reactive store, the
`_refreshTimer` handle, and the set of live timers of the environment
(each entry is a timer id with its delay; a `none` delay models the NaN
delay JS computes when the expiry cookie is absent or unparseable).
Every timer created by this model runs `reloadState` when it fires.
`hasListener` records whether `_listener.onStateChange` is set. -/
structure AuthState where
  opts : Options
  jar : CookieJar
  store : Store
  refreshTimerId : Option Nat
  timers : List (Nat × Option Int)
  nextTimerId : Nat
  hasListener : Bool
deriving Repr, DecidableEq

/-- `getAccessToken()`: `Cookies.get(this._options.service_name)`. -/
def getAccessToken (s : AuthState) (now : Nat) : Option String :=
  cookiesGet s.jar now s.opts.service_name

/-- JS truthiness of the value returned by `Cookies.get`: `undefined`
and the empty string are falsy, every other string is truthy. -/
def truthy : Option String → Bool
  | none => false
  | some v => !(v == "")

/-- Name of the expiry cookie: `service_name + "-expiry"`. -/
def expiryName (o : Options) : String := o.service_name ++ "-expiry"

/-- The listener guard shared by both branches of `reloadState`: invoke
`onStateChange` iff a listener is registered and the authentication flag
or the user key count changed. -/
def listenerEvents (hasL : Bool) (prevA a : Bool) (prevU u : Nat)
    (user : UserObj) : List Event :=
  if hasL && ((prevA != a) || (prevU != u)) then [(a, user)] else []

/-- `reloadState()`, one completed run (the userinfo fetch, when issued,
resolves to `fetch` before the run is considered complete).  Returns the
new state and the listener invocations it performed. -/
def reloadState (s : AuthState) (now : Nat) (fetch : FetchResult) :
    AuthState × List Event :=
  let accessToken := getAccessToken s now
  let prevA := s.store.isAuthenticated
  let prevU := s.store.user.length
  if truthy accessToken then
    if s.store.user.length == 0 then
      let newUser :=
        match fetch with
        | FetchResult.ok data => data
        | FetchResult.err => s.store.user
      ({ s with store := { isAuthenticated := true, user := newUser } },
       listenerEvents s.hasListener prevA true prevU newUser.length newUser)
    else
      ({ s with store := { s.store with isAuthenticated := true } }, [])
  else
    ({ s with store := { isAuthenticated := false, user := [] } },
     listenerEvents s.hasListener prevA false prevU 0 [])

/-- Body of the token endpoint success response:
`\x7b token_type, expires_in, access_token \x7d` (with `expires_in`
already read as an integer number of seconds, as `parseInt` does). -/
structure TokenResponse where
  token_type : String
  expires_in : Nat
  access_token : String
deriving Repr, DecidableEq

/-- Failure response of the token endpoint: `err.response.data.message`. -/
structure ErrorResponse where
  message : String
deriving Repr, DecidableEq

/-- JS `parseInt(s, 10)` restricted to the non-negative decimal strings
this code stores (the expiry cookie always holds `Date.getTime()` of a
timestamp): the leading run of digits, `none` when there is none or the
input is `undefined` (both give NaN). -/
def jsParseInt (v : Option String) : Option Nat :=
  match v with
  | none => none
  | some str =>
    let ds := str.data.takeWhile Char.isDigit
    if ds.isEmpty then none
    else some (ds.foldl (fun a c => a * 10 + (c.toNat - 48)) 0)

/-- `clearTimeout(id)`: the timer with that id is no longer live. -/
def clearTimeoutL (timers : List (Nat × Option Int)) (id : Nat) :
    List (Nat × Option Int) :=
  timers.filter (fun t => t.1 != id)

/-- `setRefreshTimer()`: clear the pending `_refreshTimer` if any, read
and parse the expiry cookie, schedule `reloadState` after
`expiryTime + 1000 - now` ms, and remember the new timer id. -/
def setRefreshTimer (s : AuthState) (now : Nat) : AuthState :=
  let timers1 :=
    match s.refreshTimerId with
    | some id => clearTimeoutL s.timers id
    | none => s.timers
  let expiryTime := jsParseInt (cookiesGet s.jar now (expiryName s.opts))
  let delay : Option Int := expiryTime.map (fun e => (e : Int) + 1000 - (now : Int))
  { s with
    timers := timers1 ++ [(s.nextTimerId, delay)]
    refreshTimerId := some s.nextTimerId
    nextTimerId := s.nextTimerId + 1 }

/-- Observable outcome of one `authenticate` call: the state after the
returned promise settles, the settled result (`error msg` models the
thrown `Error`), the POST requests issued in order, how many times
`reloadState` and `setRefreshTimer` ran, and the listener invocations. -/
structure AuthOutcome where
  state : AuthState
  result : Except String Unit
  posts : List String
  reloadCount : Nat
  timerSetCount : Nat
  events : List Event

/-- The two `Cookies.set` writes performed by a successful
`authenticate`: the token cookie then the expiry cookie, both with
expiration `expiryDate = now + expires_in * 1000` ms, the expiry cookie
holding `expiryDate.getTime()` as its value. -/
def authJar (s : AuthState) (now : Nat) (r : TokenResponse) : CookieJar :=
  cookiesSet
    (cookiesSet s.jar s.opts.service_name r.access_token
      (now + r.expires_in * 1000) s.opts.cookie_secure)
    (expiryName s.opts) (toString (now + r.expires_in * 1000))
    (now + r.expires_in * 1000) s.opts.cookie_secure

/-- `authenticate(\x7b client_id, username, password \x7d)`, one
completed call whose single POST to the token endpoint settles to
`resp`.  On success: computes the expiry date, writes both cookies with
that expiration (`authJar`), runs `reloadState` (whose userinfo fetch,
if issued, settles to `fetch`) and `setRefreshTimer`.  On failure:
throws an error carrying `err.response.data.message`. -/
def authenticate (s : AuthState) (now : Nat)
    (resp : Except ErrorResponse TokenResponse) (fetch : FetchResult) :
    AuthOutcome :=
  let url := s.opts.base_url ++ s.opts.token_endpoint
  match resp with
  | Except.error e =>
    { state := s, result := Except.error e.message, posts := [url]
      reloadCount := 0, timerSetCount := 0, events := [] }
  | Except.ok r =>
    let s1 := { s with jar := authJar s now r }
    let r2 := reloadState s1 now fetch
    let s3 := setRefreshTimer r2.1 now
    { state := s3, result := Except.ok (), posts := [url]
      reloadCount := 1, timerSetCount := 1, events := r2.2 }

/-- The two `Cookies.remove` calls performed by `logout`. -/
def logoutJar (s : AuthState) : CookieJar :=
  cookiesRemove (cookiesRemove s.jar s.opts.service_name) (expiryName s.opts)

/-- `logout()`: remove both cookies, then `reloadState`. -/
def logout (s : AuthState) (now : Nat) (fetch : FetchResult) :
    AuthState × List Event :=
  reloadState { s with jar := logoutJar s } now fetch

/-- The `new URL(config.url)` object, abstracted to the component the
code reads (`origin`) plus the remainder of the url. -/
structure JsUrl where
  origin : String
  rest : String
deriving Repr, DecidableEq

/-- An outgoing axios request config: its url and headers object. -/
structure RequestConfig where
  url : JsUrl
  headers : List (String × String)
deriving Repr, DecidableEq

/-- JS property assignment `headers[k] = v` on an object, as lookup
semantics: any previous binding of `k` is superseded. -/
def headerSet (hs : List (String × String)) (k v : String) :
    List (String × String) :=
  hs.filter (fun p => p.1 != k) ++ [(k, v)]

/-- JS template interpolation of a possibly-undefined value. -/
def jsInterp : Option String → String
  | some v => v
  | none => "undefined"

/-- The request interceptor installed by `setAxiosBinding`: when the url
origin is the configured base url and state is authenticated, set
`headers[token_header] = token_type + " " + getAccessToken()`. -/
def requestInterceptor (s : AuthState) (now : Nat) (config : RequestConfig) :
    RequestConfig :=
  if config.url.origin == s.opts.base_url && s.store.isAuthenticated then
    { config with
      headers := headerSet config.headers s.opts.token_header
        (s.opts.token_type ++ " " ++ jsInterp (getAccessToken s now)) }
  else config

/-- The error object seen by the response interceptor: the url of the
request that failed and the response status. -/
structure ResponseError where
  url : JsUrl
  status : Nat
deriving Repr, DecidableEq

/-- The response error interceptor installed by `setAxiosBinding`: on a
401 from the base url while authenticated, remove the token cookie and
run `reloadState`; the rejection itself always propagates to the caller
(not modelled as state). -/
def responseErrorInterceptor (s : AuthState) (now : Nat) (e : ResponseError)
    (fetch : FetchResult) : AuthState × List Event :=
  if e.url.origin == s.opts.base_url && e.status == 401 &&
      s.store.isAuthenticated then
    reloadState { s with jar := cookiesRemove s.jar s.opts.service_name }
      now fetch
  else (s, [])

/-- Concrete option set used for evaluation: the constructor defaults
for `service_name`, `token_type` and `token_header`, with a base url and
endpoints filled in by `install`. -/
def sampleOptions : Options :=
  { base_url := "https://api.example.com", client_id := "client1"
    service_name := "password-auth", token_endpoint := "/oauth/token"
    token_type := "Bearer", token_header := "Authorization"
    userinfo_endpoint := "/userinfo", cookie_secure := false }

/-- A state holding a live credential (both cookies, expiring at 10000)
with `isAuthenticated` already true and no user loaded. -/
def authedState : AuthState :=
  { opts := sampleOptions
    jar := [("password-auth", ⟨"tok", 10000, false⟩),
            ("password-auth-expiry", ⟨"10000", 10000, false⟩)]
    store := { isAuthenticated := true, user := [] }
    refreshTimerId := none, timers := [], nextTimerId := 0
    hasListener := false }

/-- A state whose token cookie is present and unexpired but holds the
empty string. -/
def emptyTokenState : AuthState :=
  { opts := sampleOptions
    jar := [("password-auth", ⟨"", 10000, false⟩)]
    store := { isAuthenticated := false, user := [] }
    refreshTimerId := none, timers := [], nextTimerId := 0
    hasListener := false }

/-- A state with no cookies and unauthenticated store. -/
def freshState : AuthState :=
  { opts := sampleOptions, jar := []
    store := { isAuthenticated := false, user := [] }
    refreshTimerId := none, timers := [], nextTimerId := 0
    hasListener := false }

/-- A state with a pending refresh timer (id 0) and an expiry cookie
holding timestamp 10000, itself expiring at 20000. -/
def timerState : AuthState :=
  { opts := sampleOptions
    jar := [("password-auth-expiry", ⟨"10000", 20000, false⟩)]
    store := { isAuthenticated := false, user := [] }
    refreshTimerId := some 0, timers := [(0, some 5)], nextTimerId := 1
    hasListener := false }

/-- A request aimed at the configured base url. -/
def cfgBase : RequestConfig :=
  { url := { origin := "https://api.example.com", rest := "/userinfo" }
    headers := [] }

/-- A request aimed at a different origin. -/
def cfgOther : RequestConfig :=
  { url := { origin := "https://other.example.org", rest := "/data" }
    headers := [("Accept", "text")] }

/-- A 401 error response coming from the base url. -/
def respErr401 : ResponseError :=
  { url := { origin := "https://api.example.com", rest := "/userinfo" }
    status := 401 }

/-- The RefreshTimer ownership invariant: every live timer is the one
registered in `_refreshTimer`. -/
def timerInv (s : AuthState) : Prop :=
  ∀ t ∈ s.timers, some t.1 = s.refreshTimerId

/- ------------------------------------------------------------------ -/
/- Helper lemmas about the cookie jar, headers and `reloadState`.      -/
/- ------------------------------------------------------------------ -/

/-- Filtering out a key makes its lookup fail. -/
theorem lookup_filter_self {α : Type} (l : List (String × α)) (n : String) :
    (l.filter (fun p => p.1 != n)).lookup n = none := by
  induction l with
  | nil => rfl
  | cons h t ih =>
    by_cases hk : h.1 = n
    · simp [List.filter_cons, hk, ih]
    · have hk2 : (n == h.1) = false := by
        simp only [beq_eq_false_iff_ne, ne_eq]
        exact fun e => hk e.symm
      simp [List.filter_cons, hk, hk2, List.lookup, ih]

/-- Filtering out one key leaves lookups of other keys unchanged. -/
theorem lookup_filter_other {α : Type} (l : List (String × α)) (n m : String)
    (h : m ≠ n) :
    (l.filter (fun p => p.1 != n)).lookup m = l.lookup m := by
  induction l with
  | nil => rfl
  | cons hd t ih =>
    by_cases hk : hd.1 = n
    · have hmn : (m == n) = false := by
        simp only [beq_eq_false_iff_ne, ne_eq]
        exact h
      simp [List.filter_cons, hk, List.lookup, hmn, ih]
    · simp [List.filter_cons, hk, List.lookup, ih]

/-- The expiry cookie name differs from the token cookie name. -/
theorem expiryName_ne (o : Options) : expiryName o ≠ o.service_name := by
  intro h
  have h2 : (o.service_name ++ "-expiry").length = o.service_name.length :=
    congrArg String.length h
  rw [String.length_append] at h2
  have h3 : "-expiry".length = 7 := rfl
  omega

/-- `Cookies.remove` makes the removed name unreadable. -/
theorem cookiesGet_remove_self (jar : CookieJar) (now : Nat) (n : String) :
    cookiesGet (cookiesRemove jar n) now n = none := by
  unfold cookiesGet cookiesRemove
  rw [lookup_filter_self]

/-- `Cookies.set` makes the written entry the one looked up. -/
theorem lookup_cookiesSet_self (jar : CookieJar) (n v : String) (exp : Nat)
    (sec : Bool) :
    (cookiesSet jar n v exp sec).lookup n = some ⟨v, exp, sec⟩ := by
  simp [cookiesSet, List.lookup]

/-- `Cookies.set` leaves other names untouched. -/
theorem lookup_cookiesSet_other (jar : CookieJar) (n m v : String) (exp : Nat)
    (sec : Bool) (h : m ≠ n) :
    (cookiesSet jar n v exp sec).lookup m = jar.lookup m := by
  have hm : (m == n) = false := by simp; exact h
  simp [cookiesSet, List.lookup, hm, lookup_filter_other jar n m h]

/-- Reading through a known unexpired entry. -/
theorem cookiesGet_of_lookup (jar : CookieJar) (now : Nat) (n : String)
    (c : Cookie) (h : jar.lookup n = some c) (hlt : now < c.expires) :
    cookiesGet jar now n = some c.value := by
  simp [cookiesGet, h, hlt]

/-- `reloadState` never touches the cookie jar. -/
theorem reload_jar (s : AuthState) (now : Nat) (f : FetchResult) :
    (reloadState s now f).1.jar = s.jar := by
  by_cases h : truthy (getAccessToken s now) = true
  · by_cases hu : (s.store.user.length == 0) = true
    · cases f <;> simp [reloadState, h, hu]
    · simp [reloadState, h, hu]
  · simp only [Bool.not_eq_true] at h
    simp [reloadState, h]

/-- `reloadState` never touches the timer allocator. -/
theorem reload_nextTimerId (s : AuthState) (now : Nat) (f : FetchResult) :
    (reloadState s now f).1.nextTimerId = s.nextTimerId := by
  by_cases h : truthy (getAccessToken s now) = true
  · by_cases hu : (s.store.user.length == 0) = true
    · cases f <;> simp [reloadState, h, hu]
    · simp [reloadState, h, hu]
  · simp only [Bool.not_eq_true] at h
    simp [reloadState, h]

/-- `reloadState` never touches the options. -/
theorem reload_opts (s : AuthState) (now : Nat) (f : FetchResult) :
    (reloadState s now f).1.opts = s.opts := by
  by_cases h : truthy (getAccessToken s now) = true
  · by_cases hu : (s.store.user.length == 0) = true
    · cases f <;> simp [reloadState, h, hu]
    · simp [reloadState, h, hu]
  · simp only [Bool.not_eq_true] at h
    simp [reloadState, h]

/-- With a truthy token the reload lands in the authenticated branch. -/
theorem reload_auth_true (s : AuthState) (now : Nat) (f : FetchResult)
    (h : truthy (getAccessToken s now) = true) :
    (reloadState s now f).1.store.isAuthenticated = true := by
  by_cases hu : (s.store.user.length == 0) = true
  · cases f <;> simp [reloadState, h, hu]
  · simp [reloadState, h, hu]

/-- With a falsy token the reload clears the store. -/
theorem reload_auth_false (s : AuthState) (now : Nat) (f : FetchResult)
    (h : truthy (getAccessToken s now) = false) :
    (reloadState s now f).1.store.isAuthenticated = false ∧
    (reloadState s now f).1.store.user = [] := by
  unfold reloadState
  simp [h]

/-- All timers owned by `_refreshTimer` are gone after `clearTimeout`. -/
theorem clearTimeoutL_all (timers : List (Nat × Option Int)) (id : Nat)
    (h : ∀ t ∈ timers, t.1 = id) : clearTimeoutL timers id = [] := by
  induction timers with
  | nil => rfl
  | cons a l ih =>
    have ha := h a (List.mem_cons_self a l)
    have hrest := ih (fun t ht => h t (List.mem_cons_of_mem a ht))
    unfold clearTimeoutL at hrest ⊢
    simp [List.filter_cons, ha, hrest]

/-- `isAuthenticated` after a reload equals the truthiness of the token
cookie read. -/
theorem reload_isAuth (s : AuthState) (now : Nat) (f : FetchResult) :
    (reloadState s now f).1.store.isAuthenticated =
      truthy (getAccessToken s now) := by
  by_cases h : truthy (getAccessToken s now) = true
  · rw [h]; exact reload_auth_true s now f h
  · simp only [Bool.not_eq_true] at h
    rw [h]; exact (reload_auth_false s now f h).1

/-- Under the RefreshTimer ownership invariant, the cancellation step of
`setRefreshTimer` leaves no live timer. -/
theorem refresh_clear (s : AuthState) (hinv : timerInv s) :
    (match s.refreshTimerId with
     | some id => clearTimeoutL s.timers id
     | none => s.timers) = [] := by
  cases hr : s.refreshTimerId with
  | none =>
    cases ht : s.timers with
    | nil => rfl
    | cons a l =>
      have ha := hinv a (by rw [ht]; exact List.mem_cons_self a l)
      rw [hr] at ha
      exact absurd ha (by simp)
  | some id =>
    exact clearTimeoutL_all s.timers id (fun t ht => by
      have h2 := hinv t ht
      rw [hr] at h2
      exact Option.some.inj h2)

/-- After `headers[k] = v`, looking up `k` yields `v`. -/
theorem lookup_headerSet_self (hs : List (String × String)) (k v : String) :
    (headerSet hs k v).lookup k = some v := by
  unfold headerSet
  induction hs with
  | nil => simp [List.lookup]
  | cons h t ih =>
    by_cases hk : h.1 = k
    · simp [List.filter_cons, hk, ih]
    · have hk2 : (k == h.1) = false := by
        simp only [beq_eq_false_iff_ne, ne_eq]
        exact fun e => hk e.symm
      simp [List.filter_cons, hk, List.cons_append, List.lookup, hk2, ih]

/- ------------------------------------------------------------------ -/
/- Claim theorems.                                                     -/
/- ------------------------------------------------------------------ -/

/-- C1 (amended): for every state in which `isAuthenticated` is true,
when the response interceptor observes a 401 response whose url origin
equals the configured base url, it deletes the token cookie entry of
the Credential (the expiry cookie entry is left in storage unchanged)
and calls `reloadState`, after which `isAuthenticated` is false. -/
theorem c1_unauthorized_clears_auth (s : AuthState) (now : Nat)
    (e : ResponseError) (fetch : FetchResult)
    (horigin : e.url.origin = s.opts.base_url) (hstatus : e.status = 401)
    (hauth : s.store.isAuthenticated = true) :
    (responseErrorInterceptor s now e fetch).1.jar.lookup s.opts.service_name
      = none ∧
    (responseErrorInterceptor s now e fetch).1.store.isAuthenticated = false ∧
    (responseErrorInterceptor s now e fetch).1.jar.lookup (expiryName s.opts)
      = s.jar.lookup (expiryName s.opts) := by
  have hcond : (e.url.origin == s.opts.base_url && e.status == 401 &&
      s.store.isAuthenticated) = true := by
    simp [horigin, hstatus, hauth]
  have hred : responseErrorInterceptor s now e fetch =
      reloadState { s with jar := cookiesRemove s.jar s.opts.service_name }
        now fetch := by
    unfold responseErrorInterceptor
    rw [if_pos hcond]
  rw [hred]
  refine ⟨?_, ?_, ?_⟩
  · rw [reload_jar]
    show (cookiesRemove s.jar s.opts.service_name).lookup s.opts.service_name
      = none
    unfold cookiesRemove
    exact lookup_filter_self s.jar s.opts.service_name
  · have hfalse : truthy (getAccessToken
        ({ s with jar := cookiesRemove s.jar s.opts.service_name }) now)
        = false := by
      show truthy (cookiesGet (cookiesRemove s.jar s.opts.service_name) now
        s.opts.service_name) = false
      rw [cookiesGet_remove_self]
      rfl
    exact (reload_auth_false _ now fetch hfalse).1
  · rw [reload_jar]
    show (cookiesRemove s.jar s.opts.service_name).lookup (expiryName s.opts)
      = s.jar.lookup (expiryName s.opts)
    unfold cookiesRemove
    exact lookup_filter_other s.jar s.opts.service_name (expiryName s.opts)
      (expiryName_ne s.opts)

/-- C1 counterexample: in a concrete authenticated state holding both
cookie entries, a 401 from the base url leaves the expiry cookie entry
in storage, so the interceptor does not delete both entries of the
Credential as the claim states. -/
theorem c1_expiry_cookie_survives :
    authedState.store.isAuthenticated = true ∧
    respErr401.url.origin = authedState.opts.base_url ∧
    respErr401.status = 401 ∧
    (responseErrorInterceptor authedState 0 respErr401
      FetchResult.err).1.jar.lookup (expiryName authedState.opts) =
      some ⟨"10000", 10000, false⟩ :=
  ⟨rfl, rfl, rfl, rfl⟩

/-- C1 witness: the amended theorem evaluated on the concrete
authenticated state and a 401 from the base url. -/
theorem c1_witness :
    (responseErrorInterceptor authedState 0 respErr401
      FetchResult.err).1.jar.lookup authedState.opts.service_name = none ∧
    (responseErrorInterceptor authedState 0 respErr401
      FetchResult.err).1.store.isAuthenticated = false ∧
    (responseErrorInterceptor authedState 0 respErr401
      FetchResult.err).1.jar.lookup (expiryName authedState.opts) =
      authedState.jar.lookup (expiryName authedState.opts) :=
  c1_unauthorized_clears_auth authedState 0 respErr401 FetchResult.err
    rfl rfl rfl

/-- C2 (amended): after every completed `reloadState`,
`isAuthenticated` is true iff a non-expired token cookie with a
non-empty (truthy) value exists in storage at that refresh; and the
user object is non-empty only when `isAuthenticated` is true and either
it was already populated by an earlier successful fetch or the userinfo
fetch of this run succeeded with a non-empty object. -/
theorem c2_reload_invariant (s : AuthState) (now : Nat) (fetch : FetchResult) :
    ((reloadState s now fetch).1.store.isAuthenticated = true ↔
      ∃ v, cookiesGet s.jar now s.opts.service_name = some v ∧ v ≠ "") ∧
    ((reloadState s now fetch).1.store.user ≠ [] →
      (reloadState s now fetch).1.store.isAuthenticated = true ∧
      (s.store.user ≠ [] ∨ ∃ d, fetch = FetchResult.ok d ∧ d ≠ [])) := by
  constructor
  · rw [reload_isAuth]
    show truthy (cookiesGet s.jar now s.opts.service_name) = true ↔
      ∃ v, cookiesGet s.jar now s.opts.service_name = some v ∧ v ≠ ""
    cases hcg : cookiesGet s.jar now s.opts.service_name with
    | none => simp [truthy]
    | some v => simp [truthy]
  · intro hne
    by_cases h : truthy (getAccessToken s now) = true
    · refine ⟨reload_auth_true s now fetch h, ?_⟩
      by_cases hu : (s.store.user.length == 0) = true
      · cases fetch with
        | ok data =>
          right
          refine ⟨data, rfl, ?_⟩
          have huser : (reloadState s now (FetchResult.ok data)).1.store.user
              = data := by
            simp [reloadState, h, hu]
          rw [huser] at hne
          exact hne
        | err =>
          have hnil : s.store.user = [] := by
            simp only [beq_iff_eq] at hu
            exact List.length_eq_zero.mp hu
          have huser : (reloadState s now FetchResult.err).1.store.user
              = s.store.user := by
            simp [reloadState, h, hu]
          rw [huser, hnil] at hne
          exact absurd rfl hne
      · left
        simp only [beq_iff_eq] at hu
        intro hnil2
        rw [hnil2] at hu
        exact hu rfl
    · simp only [Bool.not_eq_true] at h
      rw [(reload_auth_false s now fetch h).2] at hne
      exact absurd rfl hne

/-- C2 counterexample: a non-expired token cookie holding the empty
string exists in storage, yet after `reloadState` the state is
unauthenticated, refuting the existence-iff as literally stated. -/
theorem c2_empty_token_unauthenticated :
    cookiesGet emptyTokenState.jar 0 emptyTokenState.opts.service_name
      = some "" ∧
    (reloadState emptyTokenState 0 FetchResult.err).1.store.isAuthenticated
      = false :=
  ⟨rfl, rfl⟩

/-- C2 witness: the amended invariant evaluated on the concrete
authenticated state with a successful non-empty userinfo fetch. -/
theorem c2_witness :
    (reloadState authedState 0
      (FetchResult.ok [("name", "alice")])).1.store.isAuthenticated = true ∧
    (authedState.store.user ≠ [] ∨
      ∃ d, FetchResult.ok [("name", "alice")] = FetchResult.ok d ∧ d ≠ []) :=
  (c2_reload_invariant authedState 0 (FetchResult.ok [("name", "alice")])).2
    (by decide)

/-- C3 (amended): every successful `authenticate` whose token response
carries `expires_in` and `access_token` persists the Credential as two
cookie entries whose stored expiry equals `now + expires_in` seconds
and which both carry that same expiration, calls `reloadState` and
rearms the RefreshTimer; and, provided the carried `access_token` is a
non-empty string and `expires_in` is positive, `isAuthenticated` is
true afterwards. -/
theorem c3_authenticate_success (s : AuthState) (now : Nat)
    (r : TokenResponse) (fetch : FetchResult) :
    (authenticate s now (Except.ok r) fetch).state.jar.lookup
      s.opts.service_name =
      some ⟨r.access_token, now + r.expires_in * 1000, s.opts.cookie_secure⟩ ∧
    (authenticate s now (Except.ok r) fetch).state.jar.lookup
      (expiryName s.opts) =
      some ⟨toString (now + r.expires_in * 1000), now + r.expires_in * 1000,
        s.opts.cookie_secure⟩ ∧
    (authenticate s now (Except.ok r) fetch).reloadCount = 1 ∧
    (authenticate s now (Except.ok r) fetch).timerSetCount = 1 ∧
    (authenticate s now (Except.ok r) fetch).state.refreshTimerId
      = some s.nextTimerId ∧
    (r.access_token ≠ "" → 0 < r.expires_in →
      (authenticate s now (Except.ok r) fetch).state.store.isAuthenticated
        = true) := by
  have hlook_tok : (authJar s now r).lookup s.opts.service_name =
      some ⟨r.access_token, now + r.expires_in * 1000, s.opts.cookie_secure⟩ := by
    unfold authJar
    rw [lookup_cookiesSet_other _ (expiryName s.opts) s.opts.service_name _ _ _
      (Ne.symm (expiryName_ne s.opts))]
    exact lookup_cookiesSet_self s.jar s.opts.service_name r.access_token
      (now + r.expires_in * 1000) s.opts.cookie_secure
  refine ⟨?_, ?_, rfl, rfl, ?_, ?_⟩
  · show (reloadState { s with jar := authJar s now r }
      now fetch).1.jar.lookup s.opts.service_name =
      some ⟨r.access_token, now + r.expires_in * 1000, s.opts.cookie_secure⟩
    rw [reload_jar]
    exact hlook_tok
  · show (reloadState { s with jar := authJar s now r }
      now fetch).1.jar.lookup (expiryName s.opts) =
      some ⟨toString (now + r.expires_in * 1000), now + r.expires_in * 1000,
        s.opts.cookie_secure⟩
    rw [reload_jar]
    exact lookup_cookiesSet_self _ (expiryName s.opts) _ _ _
  · show some ((reloadState { s with jar := authJar s now r }
      now fetch).1.nextTimerId) = some s.nextTimerId
    rw [reload_nextTimerId]
  · intro htok hexp
    have hget : cookiesGet (authJar s now r) now s.opts.service_name =
        some r.access_token := by
      refine cookiesGet_of_lookup _ now _ _ hlook_tok ?_
      show now < now + r.expires_in * 1000
      omega
    show (reloadState { s with jar := authJar s now r }
      now fetch).1.store.isAuthenticated = true
    refine reload_auth_true _ now fetch ?_
    show truthy (cookiesGet (authJar s now r) now s.opts.service_name) = true
    rw [hget]
    simp [truthy, htok]

/-- C3 counterexample: a successful `authenticate` whose response
carries `expires_in = 3600` and the empty string as `access_token`
persists the Credential, yet leaves `isAuthenticated` false, because
the empty token value reads back falsy. -/
theorem c3_empty_token_not_authenticated :
    (authenticate freshState 0
      (Except.ok (⟨"Bearer", 3600, ""⟩ : TokenResponse))
      FetchResult.err).state.store.isAuthenticated = false ∧
    (authenticate freshState 0
      (Except.ok (⟨"Bearer", 3600, ""⟩ : TokenResponse))
      FetchResult.err).state.jar.lookup freshState.opts.service_name =
      some ⟨"", 3600000, false⟩ :=
  ⟨rfl, rfl⟩

/-- C3 witness: the amended theorem evaluated on the fresh state with a
concrete successful token response, the hypotheses of its conditional
part discharged there. -/
theorem c3_witness :
    (authenticate freshState 0
      (Except.ok (⟨"Bearer", 3600, "tok123"⟩ : TokenResponse))
      (FetchResult.ok [("name", "alice")])).state.jar.lookup
      freshState.opts.service_name =
      some ⟨"tok123", 0 + 3600 * 1000, freshState.opts.cookie_secure⟩ ∧
    (authenticate freshState 0
      (Except.ok (⟨"Bearer", 3600, "tok123"⟩ : TokenResponse))
      (FetchResult.ok [("name", "alice")])).state.jar.lookup
      (expiryName freshState.opts) =
      some ⟨toString (0 + 3600 * 1000), 0 + 3600 * 1000,
        freshState.opts.cookie_secure⟩ ∧
    (authenticate freshState 0
      (Except.ok (⟨"Bearer", 3600, "tok123"⟩ : TokenResponse))
      (FetchResult.ok [("name", "alice")])).reloadCount = 1 ∧
    (authenticate freshState 0
      (Except.ok (⟨"Bearer", 3600, "tok123"⟩ : TokenResponse))
      (FetchResult.ok [("name", "alice")])).timerSetCount = 1 ∧
    (authenticate freshState 0
      (Except.ok (⟨"Bearer", 3600, "tok123"⟩ : TokenResponse))
      (FetchResult.ok [("name", "alice")])).state.refreshTimerId
      = some freshState.nextTimerId ∧
    (authenticate freshState 0
      (Except.ok (⟨"Bearer", 3600, "tok123"⟩ : TokenResponse))
      (FetchResult.ok [("name", "alice")])).state.store.isAuthenticated
      = true :=
  ⟨(c3_authenticate_success freshState 0 ⟨"Bearer", 3600, "tok123"⟩
      (FetchResult.ok [("name", "alice")])).1,
   (c3_authenticate_success freshState 0 ⟨"Bearer", 3600, "tok123"⟩
      (FetchResult.ok [("name", "alice")])).2.1,
   (c3_authenticate_success freshState 0 ⟨"Bearer", 3600, "tok123"⟩
      (FetchResult.ok [("name", "alice")])).2.2.1,
   (c3_authenticate_success freshState 0 ⟨"Bearer", 3600, "tok123"⟩
      (FetchResult.ok [("name", "alice")])).2.2.2.1,
   (c3_authenticate_success freshState 0 ⟨"Bearer", 3600, "tok123"⟩
      (FetchResult.ok [("name", "alice")])).2.2.2.2.1,
   (c3_authenticate_success freshState 0 ⟨"Bearer", 3600, "tok123"⟩
      (FetchResult.ok [("name", "alice")])).2.2.2.2.2 (by decide) (by decide)⟩

/-- C4: after every `logout` call, both Credential cookie entries are
absent from storage and `isAuthenticated` is false. -/
theorem c4_logout_clears (s : AuthState) (now : Nat) (fetch : FetchResult) :
    (logout s now fetch).1.jar.lookup s.opts.service_name = none ∧
    (logout s now fetch).1.jar.lookup (expiryName s.opts) = none ∧
    (logout s now fetch).1.store.isAuthenticated = false := by
  have hl : (logoutJar s).lookup s.opts.service_name = none := by
    unfold logoutJar cookiesRemove
    rw [lookup_filter_other _ (expiryName s.opts) s.opts.service_name
      (Ne.symm (expiryName_ne s.opts))]
    exact lookup_filter_self s.jar s.opts.service_name
  refine ⟨?_, ?_, ?_⟩
  · show (reloadState { s with jar := logoutJar s }
      now fetch).1.jar.lookup s.opts.service_name = none
    rw [reload_jar]
    exact hl
  · show (reloadState { s with jar := logoutJar s }
      now fetch).1.jar.lookup (expiryName s.opts) = none
    rw [reload_jar]
    unfold logoutJar cookiesRemove
    exact lookup_filter_self _ (expiryName s.opts)
  · refine ((reload_auth_false _ now fetch ?_).1)
    show truthy (cookiesGet (logoutJar s) now s.opts.service_name) = false
    unfold cookiesGet
    rw [hl]
    rfl

/-- C5: `setRefreshTimer` first cancels any pending refresh timer and
then schedules a single new one whose delay is the stored Credential
expiry plus 1000 ms minus the current time, so at most one refresh
timer is alive afterwards. -/
theorem c5_set_refresh_timer (s : AuthState) (now : Nat) (v : String)
    (n : Nat) (hinv : timerInv s)
    (hcookie : cookiesGet s.jar now (expiryName s.opts) = some v)
    (hparse : jsParseInt (some v) = some n) :
    (setRefreshTimer s now).timers =
      [(s.nextTimerId, some ((n : Int) + 1000 - (now : Int)))] ∧
    (setRefreshTimer s now).refreshTimerId = some s.nextTimerId ∧
    (setRefreshTimer s now).timers.length = 1 := by
  have hclear := refresh_clear s hinv
  have htimers : (setRefreshTimer s now).timers =
      [(s.nextTimerId, some ((n : Int) + 1000 - (now : Int)))] := by
    show (match s.refreshTimerId with
          | some id => clearTimeoutL s.timers id
          | none => s.timers) ++
        [(s.nextTimerId,
          (jsParseInt (cookiesGet s.jar now (expiryName s.opts))).map
            (fun e => (e : Int) + 1000 - (now : Int)))] =
      [(s.nextTimerId, some ((n : Int) + 1000 - (now : Int)))]
    rw [hclear, hcookie, hparse]
    rfl
  refine ⟨htimers, rfl, ?_⟩
  rw [htimers]
  rfl

/-- C5 witness: the theorem evaluated on a concrete state with one
pending timer and a stored expiry of 10000, at time 0. -/
theorem c5_witness :
    (setRefreshTimer timerState 0).timers = [(1, some 11000)] ∧
    (setRefreshTimer timerState 0).refreshTimerId = some 1 ∧
    (setRefreshTimer timerState 0).timers.length = 1 :=
  c5_set_refresh_timer timerState 0 "10000" 10000
    (by unfold timerInv; decide) (by rfl) (by rfl)

/-- C6: the request interceptor attaches
`token_header : token_type token` exactly when the request url origin
equals the configured base url and `isAuthenticated` is true; a request
whose origin differs from the base url passes through with its headers
untouched, so it never receives the Authorization header. -/
theorem c6_request_interceptor_header (s : AuthState) (now : Nat)
    (config : RequestConfig) :
    (config.url.origin = s.opts.base_url → s.store.isAuthenticated = true →
      (requestInterceptor s now config).headers.lookup s.opts.token_header =
        some (s.opts.token_type ++ " " ++ jsInterp (getAccessToken s now))) ∧
    (config.url.origin ≠ s.opts.base_url →
      (requestInterceptor s now config).headers = config.headers) := by
  constructor
  · intro ho ha
    have hcond : (config.url.origin == s.opts.base_url &&
        s.store.isAuthenticated) = true := by
      simp [ho, ha]
    unfold requestInterceptor
    rw [if_pos hcond]
    exact lookup_headerSet_self config.headers s.opts.token_header _
  · intro ho
    have hcond : (config.url.origin == s.opts.base_url &&
        s.store.isAuthenticated) = false := by
      have h1 : (config.url.origin == s.opts.base_url) = false := by
        simp only [beq_eq_false_iff_ne, ne_eq]
        exact ho
      simp [h1]
    unfold requestInterceptor
    rw [if_neg (by simp [hcond])]

/-- C6 witness: on the concrete authenticated state the interceptor
attaches the bearer header for a base-url request and leaves a
cross-origin request untouched. -/
theorem c6_witness :
    (requestInterceptor authedState 0 cfgBase).headers.lookup
      authedState.opts.token_header =
      some (authedState.opts.token_type ++ " " ++
        jsInterp (getAccessToken authedState 0)) ∧
    (requestInterceptor authedState 0 cfgOther).headers = cfgOther.headers :=
  ⟨(c6_request_interceptor_header authedState 0 cfgBase).1 rfl rfl,
   (c6_request_interceptor_header authedState 0 cfgOther).2 (by decide)⟩

/-- C7: running `reloadState` twice in succession, with the stored
Credential and the fetched user unchanged between the calls, makes the
second run invoke the state-change listener zero times. -/
theorem c7_second_reload_silent (s : AuthState) (now : Nat)
    (fetch : FetchResult) :
    (reloadState (reloadState s now fetch).1 now fetch).2 = [] := by
  by_cases h : truthy (cookiesGet s.jar now s.opts.service_name) = true
  · by_cases hu : (s.store.user.length == 0) = true
    · cases fetch with
      | ok data =>
        by_cases hd : (data.length == 0) = true
        · simp [reloadState, getAccessToken, h, hu, hd, listenerEvents]
        · simp [reloadState, getAccessToken, h, hu, hd, listenerEvents]
      | err => simp [reloadState, getAccessToken, h, hu, listenerEvents]
    · simp [reloadState, getAccessToken, h, hu, listenerEvents]
  · simp only [Bool.not_eq_true] at h
    simp [reloadState, getAccessToken, h, listenerEvents]

/-- C8: when the token endpoint request fails, `authenticate` rejects
with an error carrying the message of the failure response, and the
whole call issues exactly the single POST to the token endpoint, so the
request is never retried. -/
theorem c8_authenticate_failure_message (s : AuthState) (now : Nat)
    (e : ErrorResponse) (fetch : FetchResult) :
    (authenticate s now (Except.error e) fetch).result =
      Except.error e.message ∧
    (authenticate s now (Except.error e) fetch).posts =
      [s.opts.base_url ++ s.opts.token_endpoint] :=
  ⟨rfl, rfl⟩

/-- C9: when the Credential is present, the user object empty and the
userinfo fetch fails, `reloadState` swallows the failure:
`isAuthenticated` stays true and `user` stays empty. -/
theorem c9_userinfo_failure_silent (s : AuthState) (now : Nat)
    (htok : truthy (getAccessToken s now) = true)
    (huser : s.store.user = []) :
    (reloadState s now FetchResult.err).1.store.isAuthenticated = true ∧
    (reloadState s now FetchResult.err).1.store.user = [] := by
  refine ⟨reload_auth_true s now FetchResult.err htok, ?_⟩
  simp [reloadState, htok, huser]

/-- C9 witness: the theorem evaluated on the concrete authenticated
state whose userinfo fetch fails. -/
theorem c9_witness :
    (reloadState authedState 0 FetchResult.err).1.store.isAuthenticated
      = true ∧
    (reloadState authedState 0 FetchResult.err).1.store.user = [] :=
  c9_userinfo_failure_silent authedState 0 (by rfl) rfl

/-- C10: a failed `authenticate` is atomic: the state (cookies, store,
timers) is exactly the state before the call, `reloadState` is not
invoked, the refresh timer is not rearmed and no listener fires. -/
theorem c10_authenticate_failure_atomic (s : AuthState) (now : Nat)
    (e : ErrorResponse) (fetch : FetchResult) :
    (authenticate s now (Except.error e) fetch).state = s ∧
    (authenticate s now (Except.error e) fetch).reloadCount = 0 ∧
    (authenticate s now (Except.error e) fetch).timerSetCount = 0 ∧
    (authenticate s now (Except.error e) fetch).events = [] :=
  ⟨rfl, rfl, rfl, rfl⟩

end PasswordAuth
